import Mathlib

/-
Verification development for the WhatsApp recharge bot.

The repository holds two near-identical entry points: index.js (payment-proof
funnel: game, offer, payment type, payment method, screenshot) and a second
variant (fields funnel: game, multiple offers, custom field questions, with a
free-text reset trigger on the word oferta). Both are embedded below as pure
step functions over explicit session records, with the durable stores passed
in as data and every outbound side effect recorded in an effect trace.
-/

namespace WhatsRecargas

/-- Characters treated as whitespace by the embedding of the JS trim and
split operations used in the source. The JS class is slightly wider, but the
extra code points play no role in this codebase. -/
def isWsChar (c : Char) : Bool := decide (c = ' ' ∨ c = '\t' ∨ c = '\n' ∨ c = '\r')

/-- The ASCII digit class 0-9 of the source regexes. -/
def isDigitChar (c : Char) : Bool := decide (48 ≤ c.toNat ∧ c.toNat ≤ 57)

def trimChars (l : List Char) : List Char :=
  ((l.dropWhile isWsChar).reverse.dropWhile isWsChar).reverse

/-- Embedding of the JS String trim used throughout the source. -/
def jsTrim (s : String) : String := ⟨trimChars s.data⟩

/-- Lower-casing for the ASCII and Latin-1 letters this bot receives; the
fragment of the JS toLowerCase relevant here. -/
def lowerChar (c : Char) : Char :=
  if 65 ≤ c.toNat ∧ c.toNat ≤ 90 then Char.ofNat (c.toNat + 32)
  else if c = 'Á' then 'á' else if c = 'É' then 'é' else if c = 'Í' then 'í'
  else if c = 'Ó' then 'ó' else if c = 'Ú' then 'ú' else if c = 'Ü' then 'ü'
  else if c = 'Ñ' then 'ñ' else c

def jsLower (s : String) : String := ⟨s.data.map lowerChar⟩

/-- NFD decomposition for the precomposed Latin letters occurring in this
domain, with the combining mark already dropped (the source strips marks in
the range U+0300 to U+036F after NFD). Characters outside the table are
normalization-inert. -/
def deaccentChar (c : Char) : Char :=
  if c = 'á' ∨ c = 'à' ∨ c = 'â' ∨ c = 'ä' ∨ c = 'ã' then 'a'
  else if c = 'é' ∨ c = 'è' ∨ c = 'ê' ∨ c = 'ë' then 'e'
  else if c = 'í' ∨ c = 'ì' ∨ c = 'î' ∨ c = 'ï' then 'i'
  else if c = 'ó' ∨ c = 'ò' ∨ c = 'ô' ∨ c = 'ö' ∨ c = 'õ' then 'o'
  else if c = 'ú' ∨ c = 'ù' ∨ c = 'û' ∨ c = 'ü' then 'u'
  else if c = 'ñ' then 'n' else if c = 'ç' then 'c' else c

def normChar (c : Char) : List Char :=
  if 0x300 ≤ c.toNat ∧ c.toNat ≤ 0x36F then [] else [deaccentChar (lowerChar c)]

/-- Embedding of the normalization pipeline of containsOfertas: toLowerCase,
normalize NFD, strip combining marks U+0300 to U+036F. -/
def jsNormalize (s : String) : String := ⟨(s.data.map normChar).flatten⟩

def isPrefixB (pat l : List Char) : Bool :=
  match pat, l with
  | [], _ => true
  | _ :: _, [] => false
  | p :: ps, c :: cs => p == c && isPrefixB ps cs

def isInfixB (pat l : List Char) : Bool :=
  match l with
  | [] => pat.isEmpty
  | _ :: cs => isPrefixB pat l || isInfixB pat cs

def strContains (s pat : String) : Bool := isInfixB pat.data s.data

/-- Embedding of the regex test of containsOfertas. The source pattern has
two alternatives, oferta with an optional s and ofert with an optional s;
optional suffixes never affect a substring-existence test, so the test is
containment of either stem. -/
def testOfertaRegex (s : String) : Bool :=
  strContains s "oferta" || strContains s "ofert"

/-- Embedding of containsOfertas: an empty text is falsy and returns false,
otherwise the normalized text is tested against the pattern. -/
def containsOfertas (text : String) : Bool :=
  if text = "" then false else testOfertaRegex (jsNormalize text)

def digitsVal (l : List Char) : Nat := l.foldl (fun a c => a * 10 + (c.toNat - 48)) 0

/-- Embedding of emojiToNumber: strip every character that is not an ASCII
digit, return null when nothing remains, otherwise the base-10 value of the
remaining digit string. -/
def emojiToNumber (s : String) : Option Nat :=
  let clean := s.data.filter isDigitChar
  if clean.isEmpty then none else some (digitsVal clean)

def emojiDigits : List String :=
  ["0️⃣", "1️⃣", "2️⃣", "3️⃣", "4️⃣", "5️⃣", "6️⃣", "7️⃣", "8️⃣", "9️⃣", "🔟"]

/-- Embedding of numberToEmoji: the eleven pictographic digit glyphs for 0
to 10, decimal rendering beyond. -/
def numberToEmoji (n : Nat) : String := (emojiDigits.get? n).getD (toString n)

/-- JS truthiness of the result of emojiToNumber as used by every caller:
null and 0 are both falsy. -/
def toTruthy : Option Nat → Option Nat
  | some 0 => none
  | o => o

def splitRunsAux (p : Char → Bool) : List Char → List Char → List String
  | [], acc => if acc.isEmpty then [] else [⟨acc.reverse⟩]
  | c :: cs, acc =>
    if p c then
      if acc.isEmpty then splitRunsAux p cs []
      else (⟨acc.reverse⟩ : String) :: splitRunsAux p cs []
    else splitRunsAux p cs (c :: acc)

/-- Tokens of maximal separator-free runs. Models a JS split on a separator
class composed with discarding empty tokens, which is how every caller in
the source consumes the result: empty tokens parse to null and are
filtered. -/
def splitTokens (p : Char → Bool) (s : String) : List String := splitRunsAux p s.data []

/-- Embedding of the multi-offer input parse: split on commas and
whitespace, map each token through emojiToNumber and keep the non-null
results. -/
def parseNumbers (s : String) : List Nat :=
  (splitTokens (fun c => c == ',' || isWsChar c) s).filterMap emojiToNumber

def splitWs (s : String) : List String := splitTokens isWsChar s

def splitSign : List Char → Bool × List Char
  | '-' :: cs => (true, cs)
  | '+' :: cs => (false, cs)
  | cs => (false, cs)

/-- Embedding of parseInt with radix 10: optional sign, then the longest
digit prefix; NaN (none) when that prefix is empty. -/
def parseIntJs (s : String) : Option Int :=
  let sp := splitSign s.data
  let ds := sp.2.takeWhile isDigitChar
  if ds.isEmpty then none
  else some (if sp.1 then -(digitsVal ds : Int) else (digitsVal ds : Int))

def fracVal (l : List Char) : ℚ := (digitsVal l : ℚ) / ((10 : ℚ) ^ l.length)

/-- Full-string parse of a decimal numeric literal: optional sign, digits
with an optional fractional part, at least one digit overall. Embeds the
source guard combining parseFloat with isFinite on the whole token,
restricted to the decimal literals this bot receives. -/
def parseDecimalFull (s : String) : Option ℚ :=
  let sp := splitSign s.data
  let intPart := sp.2.takeWhile isDigitChar
  let rest := sp.2.drop intPart.length
  let core : Option ℚ :=
    match rest with
    | [] => if intPart.isEmpty then none else some (digitsVal intPart : ℚ)
    | '.' :: frac =>
      if frac.all isDigitChar ∧ ¬(intPart.isEmpty ∧ frac.isEmpty) then
        some ((digitsVal intPart : ℚ) + fracVal frac)
      else none
    | _ => none
  core.map (fun q => if sp.1 then -q else q)

/-! ## Catalog data model -/

inductive PayType
  | card
  | mobile
deriving DecidableEq

structure Game where
  id : Nat
  number : Nat
  name : String
  description : String
deriving DecidableEq

structure Offer where
  id : Nat
  gameId : Nat
  number : Nat
  description : String
  priceMobile : Int
  priceCard : Int
  priceUsd : Option ℚ
deriving DecidableEq

structure PaymentMethod where
  id : Nat
  ptype : PayType
  number : Nat
  label : String
  details : List (String × String)
deriving DecidableEq

structure FieldRow where
  gameId : Nat
  fieldName : String
  fieldOrder : Nat
  required : Bool
deriving DecidableEq

structure Catalog where
  games : List Game
  offers : List Offer
  methods : List PaymentMethod
  fields : List FieldRow
deriving DecidableEq

def insertByKey {α : Type} (key : α → Nat) (x : α) : List α → List α
  | [] => [x]
  | y :: ys => if key x ≤ key y then x :: y :: ys else y :: insertByKey key x ys

/-- Ascending sort by a numeric column, modelling the order clause of the
store list queries. -/
def sortByKey {α : Type} (key : α → Nat) (l : List α) : List α := l.foldr (insertByKey key) []

def getGames (cat : Catalog) : List Game := sortByKey (fun g => g.number) cat.games

def getGameByNumber (cat : Catalog) (n : Nat) : Option Game :=
  cat.games.find? (fun g => g.number = n)

/-- The source passes the raw session column to getGameByNumber; an equality
filter against null matches no row. -/
def getGameByNumberOpt (cat : Catalog) : Option Nat → Option Game
  | none => none
  | some n => getGameByNumber cat n

def getOffersByGameId (cat : Catalog) (gid : Nat) : List Offer :=
  sortByKey (fun o => o.number) (cat.offers.filter (fun o => o.gameId = gid))

def getOfferByGameAndNumber (cat : Catalog) (gid n : Nat) : Option Offer :=
  cat.offers.find? (fun o => o.gameId = gid ∧ o.number = n)

def getOfferById (cat : Catalog) (oid : Nat) : Option Offer :=
  cat.offers.find? (fun o => o.id = oid)

def getOfferByIdOpt (cat : Catalog) : Option Nat → Option Offer
  | none => none
  | some oid => getOfferById cat oid

def getOffersByIds (cat : Catalog) (ids : List Nat) : List Offer :=
  cat.offers.filter (fun o => o.id ∈ ids)

def getPaymentMethods (cat : Catalog) : Option PayType → List PaymentMethod
  | none => sortByKey (fun m => m.number) cat.methods
  | some ty => sortByKey (fun m => m.number) (cat.methods.filter (fun m => m.ptype = ty))

def getPaymentMethodByNumber (cat : Catalog) (ty : PayType) (n : Nat) : Option PaymentMethod :=
  cat.methods.find? (fun m => m.ptype = ty ∧ m.number = n)

def getMethodByNumOpt (cat : Catalog) (ty : Option PayType) (n : Nat) : Option PaymentMethod :=
  match ty with
  | none => none
  | some t => getPaymentMethodByNumber cat t n

def getMethodByNumOpt2 (cat : Catalog) (ty : Option PayType) (n : Option Nat) :
    Option PaymentMethod :=
  match n with
  | none => none
  | some m => getMethodByNumOpt cat ty m

def getGameFields (cat : Catalog) (gid : Nat) : List FieldRow :=
  sortByKey (fun f => f.fieldOrder) (cat.fields.filter (fun f => f.gameId = gid))

/-! ## Requests, effects and messages -/

inductive ReqStatus
  | pending
  | completed
deriving DecidableEq

inductive ReqDetails
  | methodDetails (d : List (String × String))
  | fieldVals (d : Option (List (String × String)))
deriving DecidableEq

structure Request where
  userJid : String
  gameName : String
  offerDesc : String
  paymentMethod : String
  paymentDetails : ReqDetails
  screenshotUrl : Option String
  status : ReqStatus
deriving DecidableEq

/-- A parsed offer line accumulated by the add-offers dialog. The option in
the integer prices records the JS NaN produced by an unvalidated parseInt. -/
structure OfferEntry where
  number : Nat
  desc : String
  mobile : Option Int
  card : Option Int
  usd : Option ℚ
deriving DecidableEq

set_option maxHeartbeats 1600000 in
/-- Outbound message templates, one constructor per send site of the source,
each carrying the dynamic parts spliced into the literal text there. -/
inductive Msg
  | withHint (m : Msg)
  | noGamesAvailable
  | mainMenu (games : List Game)
  | invalidGameNumber
  | gameNotFound
  | noOffersYet
  | offersPromptSingle (gameName : String) (offers : List Offer)
  | offersPromptMulti (gameName : String) (offers : List Offer)
  | offersBackV1 (gameName : String) (offers : List Offer)
  | offersBackV2 (gameName : String) (offers : List Offer)
  | invalidOfferNumber
  | noNumbersRecognized
  | gameLost
  | offerNotFound
  | offerNumberNotFound (n : Nat)
  | choosePayment (hasCards hasMobiles : Bool)
  | choosePaymentBack (hasCards hasMobiles : Bool)
  | noPaymentMethods
  | choose1or2
  | noMethodsOfType
  | methodsList (ty : PayType) (methods : List PaymentMethod)
  | invalidChoiceNumber
  | methodNotFound
  | internalError
  | paymentInfo (requestId : String) (gameName offerDesc : String) (method : PaymentMethod)
  | needImage
  | screenshotError
  | backFromScreenshot
  | newRequestV1 (requestId : Option String) (userJid gameName offerDesc methodLabel url : String)
  | requestSentV1 (requestId : Option String)
  | firstFieldPrompt (fieldName : String)
  | nextFieldPrompt (fieldName : String)
  | newRequestV2 (userJid gameName : String) (offers : List Offer)
      (fieldValues : List (String × String)) (requestId : String)
  | requestSentV2 (requestId : String)
  | requestNotFound
  | alreadyCompleted
  | completionNotice (gameName offerDesc : String)
  | requestCompleted (requestId : String)
  | noLines
  | lineAdded
  | gameCreateError (name : String)
  | tableSummary (n : Nat)
  | offerFormatError
  | offerInvalidNumber
  | noPricesFound
  | offerAdded (desc : String)
  | noOffersAdded
  | offerCreateError (desc : String)
  | offersSummary (n : Nat)
deriving DecidableEq

/-- Side effects of one handler run, in emission order. -/
inductive Effect
  | send (jid : String) (m : Msg)
  | uploadScreenshot (requestId : Option String)
  | createRequest (requestId : Option String) (r : Request)
  | completeRequest (requestId : String)
  | createGame (number : Nat) (name : String)
  | createOffer (gameId : Nat) (e : OfferEntry)
deriving DecidableEq

/-- Embedding of sendWithCancelHint: the same text with the fixed cancel
hint suffix. -/
def sendHint (jid : String) (m : Msg) : Effect := Effect.send jid (Msg.withHint m)

def optToStr : Option String → String
  | none => "null"
  | some s => s

/-- The storage path of the uploaded screenshot, standing in for the public
URL the storage adapter derives from it. A null request id is spliced into
the JS template literally. -/
def publicUrl (rid : Option String) : String := "screenshots/" ++ optToStr rid ++ ".png"

def createdRequests (effs : List Effect) : List (Option String × Request) :=
  effs.filterMap fun e =>
    match e with
    | Effect.createRequest rid r => some (rid, r)
    | _ => none

/-! ## Funnel variant 1: payment-proof flow of index.js -/

inductive StepV1
  | idle
  | awaitingGame
  | awaitingOffer
  | awaitingPaymentMethod
  | awaitingPaymentChoice
  | awaitingScreenshot
deriving DecidableEq

structure SessionV1 where
  step : StepV1
  selectedGame : Option Nat
  selectedOfferId : Option Nat
  selectedPaymentType : Option PayType
  selectedPaymentNumber : Option Nat
  requestId : Option String
deriving DecidableEq

def clearedSessionV1 : SessionV1 := ⟨StepV1.idle, none, none, none, none, none⟩

structure InputV1 where
  text : String
  hasImage : Bool
  uploadOk : Bool
  freshId : String
deriving DecidableEq

def sendMainMenu (cat : Catalog) (jid : String) : List Effect :=
  let games := getGames cat
  if games.isEmpty then [Effect.send jid Msg.noGamesAvailable]
  else [Effect.send jid (Msg.mainMenu games)]

def handleBackV1 (cat : Catalog) (jid : String) (sess : SessionV1) : SessionV1 × List Effect :=
  match sess.step with
  | StepV1.awaitingGame | StepV1.idle => (sess, sendMainMenu cat jid)
  | StepV1.awaitingOffer =>
    ({ sess with step := StepV1.idle, selectedGame := none }, sendMainMenu cat jid)
  | StepV1.awaitingPaymentMethod =>
    match getGameByNumberOpt cat sess.selectedGame with
    | none => (sess, sendMainMenu cat jid)
    | some game =>
      ({ sess with step := StepV1.awaitingOffer, selectedOfferId := none },
       [sendHint jid (Msg.offersBackV1 game.name (getOffersByGameId cat game.id))])
  | StepV1.awaitingPaymentChoice =>
    let cards := getPaymentMethods cat (some PayType.card)
    let mobiles := getPaymentMethods cat (some PayType.mobile)
    ({ sess with step := StepV1.awaitingPaymentMethod, selectedPaymentType := none,
                 selectedPaymentNumber := none },
     [sendHint jid (Msg.choosePaymentBack (!cards.isEmpty) (!mobiles.isEmpty))])
  | StepV1.awaitingScreenshot => (sess, [sendHint jid Msg.backFromScreenshot])

/-- Embedding of handleClientMessage of index.js: one inbound user message
against the persisted session, returning the updated session and the effect
trace. The fresh request id and the success of the storage upload are inputs
standing for the external id generator and blob store. -/
def handleClientMessageV1 (cat : Catalog) (adminJid jid : String) (sess : SessionV1)
    (inp : InputV1) : SessionV1 × List Effect :=
  let lower := jsLower (jsTrim inp.text)
  if lower = "cancelar" then (clearedSessionV1, sendMainMenu cat jid)
  else if lower = "volver" then handleBackV1 cat jid sess
  else
    match sess.step with
    | StepV1.idle => (sess, sendMainMenu cat jid)
    | StepV1.awaitingGame =>
      match toTruthy (emojiToNumber inp.text) with
      | none => (sess, [sendHint jid Msg.invalidGameNumber])
      | some gn =>
        match getGameByNumber cat gn with
        | none => (sess, [sendHint jid Msg.gameNotFound])
        | some game =>
          let offers := getOffersByGameId cat game.id
          if offers.isEmpty then (sess, [sendHint jid Msg.noOffersYet])
          else
            ({ sess with step := StepV1.awaitingOffer, selectedGame := some gn },
             [sendHint jid (Msg.offersPromptSingle game.name offers)])
    | StepV1.awaitingOffer =>
      match toTruthy (emojiToNumber inp.text) with
      | none => (sess, [sendHint jid Msg.invalidOfferNumber])
      | some onum =>
        match getGameByNumberOpt cat sess.selectedGame with
        | none => ({ sess with step := StepV1.idle }, [sendHint jid Msg.gameLost])
        | some game =>
          match getOfferByGameAndNumber cat game.id onum with
          | none => (sess, [sendHint jid Msg.offerNotFound])
          | some offer =>
            let sess1 := { sess with step := StepV1.awaitingPaymentMethod,
                                     selectedOfferId := some offer.id }
            let cards := getPaymentMethods cat (some PayType.card)
            let mobiles := getPaymentMethods cat (some PayType.mobile)
            if cards.isEmpty ∧ mobiles.isEmpty then
              ({ sess1 with step := StepV1.idle }, [Effect.send jid Msg.noPaymentMethods])
            else
              (sess1, [sendHint jid (Msg.choosePayment (!cards.isEmpty) (!mobiles.isEmpty))])
    | StepV1.awaitingPaymentMethod =>
      let method := jsTrim inp.text
      if method ≠ "1" ∧ method ≠ "2" then (sess, [sendHint jid Msg.choose1or2])
      else
        let ty := if method = "1" then PayType.card else PayType.mobile
        let methods := getPaymentMethods cat (some ty)
        if methods.isEmpty then (sess, [sendHint jid Msg.noMethodsOfType])
        else
          ({ sess with step := StepV1.awaitingPaymentChoice, selectedPaymentType := some ty },
           [sendHint jid (Msg.methodsList ty methods)])
    | StepV1.awaitingPaymentChoice =>
      match toTruthy (emojiToNumber inp.text) with
      | none => (sess, [sendHint jid Msg.invalidChoiceNumber])
      | some cn =>
        match getMethodByNumOpt cat sess.selectedPaymentType cn with
        | none => (sess, [sendHint jid Msg.methodNotFound])
        | some method =>
          match getGameByNumberOpt cat sess.selectedGame,
                getOfferByIdOpt cat sess.selectedOfferId with
          | some game, some offer =>
            ({ sess with step := StepV1.awaitingScreenshot, requestId := some inp.freshId,
                         selectedPaymentNumber := some cn },
             [Effect.send jid (Msg.paymentInfo inp.freshId game.name offer.description method)])
          | _, _ => ({ sess with step := StepV1.idle }, [sendHint jid Msg.internalError])
    | StepV1.awaitingScreenshot =>
      if !inp.hasImage then (sess, [sendHint jid Msg.needImage])
      else if !inp.uploadOk then (sess, [sendHint jid Msg.screenshotError])
      else
        match getGameByNumberOpt cat sess.selectedGame,
              getOfferByIdOpt cat sess.selectedOfferId,
              getMethodByNumOpt2 cat sess.selectedPaymentType sess.selectedPaymentNumber with
        | some game, some offer, some method =>
          let url := publicUrl sess.requestId
          (clearedSessionV1,
           [Effect.uploadScreenshot sess.requestId,
            Effect.createRequest sess.requestId
              { userJid := jid, gameName := game.name, offerDesc := offer.description,
                paymentMethod := method.label,
                paymentDetails := ReqDetails.methodDetails method.details,
                screenshotUrl := some url, status := ReqStatus.pending },
            Effect.send adminJid
              (Msg.newRequestV1 sess.requestId jid game.name offer.description method.label url),
            Effect.send jid (Msg.requestSentV1 sess.requestId)])
        | _, _, _ =>
          (sess, [Effect.uploadScreenshot sess.requestId, sendHint jid Msg.screenshotError])

/-! ## Funnel variant 2: custom-fields flow -/

inductive StepV2
  | idle
  | awaitingGame
  | awaitingOffers
  | awaitingFields
deriving DecidableEq

structure SessionV2 where
  step : StepV2
  selectedGame : Option Nat
  selectedOffers : Option (List Nat)
  fieldValues : Option (List (String × String))
  currentField : Option Nat
  requestId : Option String
deriving DecidableEq

def clearedSessionV2 : SessionV2 := ⟨StepV2.idle, none, none, none, none, none⟩

structure InputV2 where
  text : String
  freshId : String
deriving DecidableEq

/-- Embedding of the resolution loop of the multi-offer selection: the first
input number with no offer of this game aborts with that number, otherwise
the offer ids in input order. -/
def resolveOffers (offers : List Offer) : List Nat → Except Nat (List Nat)
  | [] => Except.ok []
  | n :: rest =>
    match offers.find? (fun o => o.number = n) with
    | none => Except.error n
    | some o => (resolveOffers offers rest).map (fun ids => o.id :: ids)

/-- JS object key assignment on the field-values mapping: replace an
existing key in place, otherwise append. -/
def setField (m : List (String × String)) (k v : String) : List (String × String) :=
  if m.any (fun p => p.1 = k) then m.map (fun p => if p.1 = k then (k, v) else p)
  else m ++ [(k, v)]

def joinComma (l : List String) : String := String.intercalate ", " l

/-- Embedding of sendRequestToAdmin of the fields variant. The returned
option is the session overwrite performed by its final update; it is none
when the function throws first: a vanished game row throws before any
effect, and a null field-values mapping throws after the insert, when the
admin summary enumerates its keys. -/
def sendRequestToAdmin (cat : Catalog) (adminJid jid : String) (sess : SessionV2)
    (offerIds : Option (List Nat)) (fieldValues : Option (List (String × String)))
    (freshId : String) : List Effect × Option SessionV2 :=
  match getGameByNumberOpt cat sess.selectedGame with
  | none => ([], none)
  | some game =>
    let offers := getOffersByIds cat ((offerIds).getD [])
    let createEff := Effect.createRequest (some freshId)
      { userJid := jid, gameName := game.name,
        offerDesc := joinComma (offers.map (fun o => o.description)),
        paymentMethod := "pendiente", paymentDetails := ReqDetails.fieldVals fieldValues,
        screenshotUrl := none, status := ReqStatus.pending }
    match fieldValues with
    | none => ([createEff], none)
    | some fv =>
      ([createEff,
        Effect.send adminJid (Msg.newRequestV2 jid game.name offers fv freshId),
        Effect.send jid (Msg.requestSentV2 freshId)],
       some clearedSessionV2)

def handleBackV2 (cat : Catalog) (jid : String) (sess : SessionV2) : SessionV2 × List Effect :=
  match sess.step with
  | StepV2.awaitingGame | StepV2.idle => (sess, sendMainMenu cat jid)
  | StepV2.awaitingOffers =>
    ({ sess with step := StepV2.idle, selectedGame := none }, sendMainMenu cat jid)
  | StepV2.awaitingFields =>
    match getGameByNumberOpt cat sess.selectedGame with
    | none => (sess, sendMainMenu cat jid)
    | some game =>
      ({ sess with step := StepV2.awaitingOffers, selectedOffers := none,
                   fieldValues := none, currentField := none },
       [sendHint jid (Msg.offersBackV2 game.name (getOffersByGameId cat game.id))])

/-- The per-state dispatch of the fields variant, after the three leading
keyword checks. -/
def handleClientMessageV2Core (cat : Catalog) (adminJid jid : String) (sess : SessionV2)
    (inp : InputV2) : SessionV2 × List Effect :=
  match sess.step with
  | StepV2.idle => (sess, sendMainMenu cat jid)
  | StepV2.awaitingGame =>
    match toTruthy (emojiToNumber inp.text) with
    | none => (sess, [sendHint jid Msg.invalidGameNumber])
    | some gn =>
      match getGameByNumber cat gn with
      | none => (sess, [sendHint jid Msg.gameNotFound])
      | some game =>
        let offers := getOffersByGameId cat game.id
        if offers.isEmpty then (sess, [sendHint jid Msg.noOffersYet])
        else
          ({ sess with step := StepV2.awaitingOffers, selectedGame := some gn },
           [sendHint jid (Msg.offersPromptMulti game.name offers)])
  | StepV2.awaitingOffers =>
    let numbers := parseNumbers inp.text
    if numbers.isEmpty then (sess, [sendHint jid Msg.noNumbersRecognized])
    else
      match getGameByNumberOpt cat sess.selectedGame with
      | none => ({ sess with step := StepV2.idle }, [sendHint jid Msg.gameLost])
      | some game =>
        let offers := getOffersByGameId cat game.id
        match resolveOffers offers numbers with
        | Except.error n => (sess, [sendHint jid (Msg.offerNumberNotFound n)])
        | Except.ok selectedOffers =>
          let sess1 := { sess with step := StepV2.awaitingFields,
                                   selectedOffers := some selectedOffers,
                                   fieldValues := some [], currentField := some 0 }
          match getGameFields cat game.id with
          | [] =>
            let r := sendRequestToAdmin cat adminJid jid sess (some selectedOffers) (some [])
              inp.freshId
            match r.2 with
            | some s2 => (s2, r.1)
            | none => (sess1, r.1)
          | f :: _ => (sess1, [Effect.send jid (Msg.firstFieldPrompt f.fieldName)])
  | StepV2.awaitingFields =>
    match getGameByNumberOpt cat sess.selectedGame with
    | none => ({ sess with step := StepV2.idle }, [sendHint jid Msg.gameLost])
    | some game =>
      let fields := getGameFields cat game.id
      let currentIdx := sess.currentField.getD 0
      if h : currentIdx < fields.length then
        let field := fields.get ⟨currentIdx, h⟩
        let fieldValues := sess.fieldValues.getD []
        let fieldValues1 := setField fieldValues field.fieldName inp.text
        if h2 : currentIdx + 1 < fields.length then
          ({ sess with fieldValues := some fieldValues1,
                       currentField := some (currentIdx + 1) },
           [Effect.send jid (Msg.nextFieldPrompt (fields.get ⟨currentIdx + 1, h2⟩).fieldName)])
        else
          let sess1 := { sess with fieldValues := some fieldValues1 }
          let r := sendRequestToAdmin cat adminJid jid sess sess.selectedOffers
            (some fieldValues1) inp.freshId
          match r.2 with
          | some s2 => (s2, r.1)
          | none => (sess1, r.1)
      else
        let r := sendRequestToAdmin cat adminJid jid sess sess.selectedOffers sess.fieldValues
          inp.freshId
        match r.2 with
        | some s2 => (s2, r.1)
        | none => (sess, r.1)

/-- Embedding of handleClientMessage of the fields variant: the oferta reset
trigger fires first, for any non-idle session, then the cancel and back
keywords, then the per-state dispatch. -/
def handleClientMessageV2 (cat : Catalog) (adminJid jid : String) (sess : SessionV2)
    (inp : InputV2) : SessionV2 × List Effect :=
  if containsOfertas inp.text = true ∧ sess.step ≠ StepV2.idle then
    (clearedSessionV2, sendMainMenu cat jid)
  else
    let lower := jsLower (jsTrim inp.text)
    if lower = "cancelar" then (clearedSessionV2, sendMainMenu cat jid)
    else if lower = "volver" then handleBackV2 cat jid sess
    else handleClientMessageV2Core cat adminJid jid sess inp

/-! ## Request store and the completion command -/

abbrev RequestStore := List (String × Request)

def getRequestStore (store : RequestStore) (rid : String) : Option Request :=
  (store.find? (fun p => p.1 = rid)).map (fun p => p.2)

/-- Embedding of completeRequest: set the status of every row with this id
to completed. -/
def completeRequestStore (store : RequestStore) (rid : String) : RequestStore :=
  store.map (fun p =>
    if p.1 = rid then (p.1, { p.2 with status := ReqStatus.completed }) else p)

/-- Embedding of the /completar branch of handleAdminCommand: an unknown id
and an already completed id are rejected without mutation; a pending request
is completed, the owning user identity is notified and the operator gets a
confirmation. -/
def handleCompletarCommand (store : RequestStore) (adminJid requestId : String) :
    RequestStore × List Effect :=
  match getRequestStore store requestId with
  | none => (store, [Effect.send adminJid Msg.requestNotFound])
  | some request =>
    if request.status = ReqStatus.completed then
      (store, [Effect.send adminJid Msg.alreadyCompleted])
    else
      (completeRequestStore store requestId,
       [Effect.completeRequest requestId,
        Effect.send request.userJid (Msg.completionNotice request.gameName request.offerDesc),
        Effect.send adminJid (Msg.requestCompleted requestId)])

/-! ## Bulk product table dialog -/

def isKeycapChar (c : Char) : Bool :=
  isDigitChar c || c == '️' || c == '⃣' || c == '🔟'

/-- Embedding of the bulk product line regex: one or more keycap-class
characters, then whitespace, then the rest of the line, anchored at both
ends. Returns the two capture groups. The dot of the second group does not
cross line breaks. -/
def matchTableLine (line : String) : Option (String × String) :=
  let cs := line.data
  let pre := cs.takeWhile isKeycapChar
  let suffix := cs.drop pre.length
  if pre.isEmpty then none
  else
    let ws := suffix.takeWhile isWsChar
    let rem := suffix.drop ws.length
    if ws.isEmpty then none
    else if rem.isEmpty then
      match suffix.getLast? with
      | none => none
      | some c => if c = '\n' ∨ c = '\r' then none else some (⟨pre⟩, ⟨[c]⟩)
    else if rem.contains '\n' || rem.contains '\r' then none
    else some (⟨pre⟩, ⟨rem⟩)

structure TableAcc where
  effs : List Effect
  success : Nat
deriving DecidableEq

/-- One line of the bulk product batch: silently skipped when the regex does
not match or the parsed number or trimmed name is falsy; otherwise the game
is created, counting a success, or the external store error is reported for
that line alone. The outcome of the external insert is the function ok. -/
def stepTableLine (ok : Nat → String → Bool) (jid : String) (a : TableAcc) (line : String) :
    TableAcc :=
  match matchTableLine line with
  | none => a
  | some g =>
    match toTruthy (emojiToNumber g.1) with
    | none => a
    | some num =>
      let name := jsTrim g.2
      if name = "" then a
      else if ok num name then
        { effs := a.effs ++ [Effect.createGame num name], success := a.success + 1 }
      else { a with effs := a.effs ++ [Effect.send jid (Msg.gameCreateError name)] }

def processTableLines (ok : Nat → String → Bool) (jid : String) (lines : List String) :
    TableAcc :=
  lines.foldl (stepTableLine ok jid) ⟨[], 0⟩

structure TableDialog where
  lines : List String
deriving DecidableEq

/-- Embedding of handleCreateTableDialog at step 1: accumulate lines until
the terminator, then attempt each accumulated line independently and finish
with the success-count summary; an empty batch is cancelled instead. Returns
the next dialog state, none meaning the dialog row was cleared. -/
def handleCreateTableDialog (ok : Nat → String → Bool) (jid : String) (d : TableDialog)
    (text : String) : Option TableDialog × List Effect :=
  if jsLower text = "/listo" then
    if d.lines.isEmpty then (none, [Effect.send jid Msg.noLines])
    else
      let a := processTableLines ok jid d.lines
      (none, a.effs ++ [Effect.send jid (Msg.tableSummary a.success)])
  else
    (some ⟨d.lines ++ [text]⟩, [Effect.send jid Msg.lineAdded])

/-! ## Bulk offer entry dialog -/

inductive OfferLineResult
  | tooShort
  | badNumber
  | noPrices
  | parsed (e : OfferEntry)
deriving DecidableEq

/-- Embedding of the per-line parse of handleAddOffersDialog: at least four
whitespace-separated tokens, a truthy leading menu number, then the numeric
tail read right to left. The last token is taken as the USD price exactly
when the whole token parses as a finite number; the two tokens before the
tail are converted by parseInt with no NaN check, and the tokens between the
number and the price tail joined by single spaces form the description. -/
def parseOfferLine (text : String) : OfferLineResult :=
  let parts := splitWs (jsTrim text)
  if parts.length < 4 then OfferLineResult.tooShort
  else
    match toTruthy (emojiToNumber (parts.headD "")) with
    | none => OfferLineResult.badNumber
    | some number =>
      let idx0 := parts.length - 1
      let usd := parseDecimalFull ((parts.get? idx0).getD "")
      let idx1 := if usd.isSome then idx0 - 1 else idx0
      if idx1 ≥ 2 then
        let card := parseIntJs ((parts.get? idx1).getD "")
        let mobile := parseIntJs ((parts.get? (idx1 - 1)).getD "")
        let desc := String.intercalate " " ((parts.take (idx1 - 1)).drop 1)
        OfferLineResult.parsed ⟨number, desc, mobile, card, usd⟩
      else OfferLineResult.noPrices

structure OffersDialog where
  gameId : Nat
  gameNumber : Nat
  offers : List OfferEntry
deriving DecidableEq

def commitOffers (ok : OfferEntry → Bool) (jid : String) (gameId : Nat) :
    List OfferEntry → List Effect × Nat
  | [] => ([], 0)
  | e :: es =>
    let r := commitOffers ok jid gameId es
    if ok e then (Effect.createOffer gameId e :: r.1, r.2 + 1)
    else (Effect.send jid (Msg.offerCreateError e.desc) :: r.1, r.2)

/-- Embedding of handleAddOffersDialog at step 1: the terminator commits
every accumulated line independently and reports the success count; any
other text is parsed as one offer line, a failing line leaving the
accumulated offers untouched. -/
def handleAddOffersDialog (ok : OfferEntry → Bool) (jid : String) (d : OffersDialog)
    (text : String) : Option OffersDialog × List Effect :=
  if jsLower text = "/fin" then
    if d.offers.isEmpty then (none, [Effect.send jid Msg.noOffersAdded])
    else
      let r := commitOffers ok jid d.gameId d.offers
      (none, r.1 ++ [Effect.send jid (Msg.offersSummary r.2)])
  else
    match parseOfferLine text with
    | OfferLineResult.tooShort => (some d, [Effect.send jid Msg.offerFormatError])
    | OfferLineResult.badNumber => (some d, [Effect.send jid Msg.offerInvalidNumber])
    | OfferLineResult.noPrices => (some d, [Effect.send jid Msg.noPricesFound])
    | OfferLineResult.parsed e =>
      (some { d with offers := d.offers ++ [e] }, [Effect.send jid (Msg.offerAdded e.desc)])

/-! ## Helper lemmas -/

theorem mem_dropWhile_of_mem {α : Type} {p : α → Bool} {a : α} {l : List α}
    (ha : a ∈ l) (hpa : p a = false) : a ∈ l.dropWhile p := by
  induction l with
  | nil => cases ha
  | cons b t ih =>
    rw [List.dropWhile_cons]
    by_cases hb : p b = true
    · rw [if_pos hb]
      rcases List.mem_cons.mp ha with h | h
      · subst h; rw [hpa] at hb; cases hb
      · exact ih h
    · rw [if_neg hb]
      exact ha

theorem digit_mem_trim {c : Char} {l : List Char} (hc : isDigitChar c = true) (hm : c ∈ l) :
    c ∈ trimChars l := by
  have hws : isWsChar c = false := by
    have h1 : 48 ≤ c.toNat ∧ c.toNat ≤ 57 := by simpa [isDigitChar] using hc
    have hne : ∀ d : Char, d.toNat < 48 → c ≠ d := by
      intro d hd hcd
      subst hcd
      omega
    simp [isWsChar, hne ' ' (by decide), hne '\t' (by decide), hne '\n' (by decide),
      hne '\r' (by decide)]
  unfold trimChars
  have h1 : c ∈ l.dropWhile isWsChar := mem_dropWhile_of_mem hm hws
  have h2 : c ∈ (l.dropWhile isWsChar).reverse := List.mem_reverse.mpr h1
  have h3 : c ∈ (l.dropWhile isWsChar).reverse.dropWhile isWsChar :=
    mem_dropWhile_of_mem h2 hws
  exact List.mem_reverse.mpr h3

theorem lowerChar_of_digit {c : Char} (hc : isDigitChar c = true) : lowerChar c = c := by
  have h1 : 48 ≤ c.toNat ∧ c.toNat ≤ 57 := by simpa [isDigitChar] using hc
  have hA : ¬(65 ≤ c.toNat ∧ c.toNat ≤ 90) := by omega
  have hne : ∀ d : Char, 57 < d.toNat → c ≠ d := by
    intro d hd hcd
    subst hcd
    omega
  simp [lowerChar, hA, hne 'Á' (by decide), hne 'É' (by decide), hne 'Í' (by decide),
    hne 'Ó' (by decide), hne 'Ú' (by decide), hne 'Ü' (by decide), hne 'Ñ' (by decide)]

/-- A text whose digit content parses at all can never be one of the control
keywords: the digit survives trimming and lower-casing, and the keywords
contain none. -/
theorem emoji_some_not_keyword {t : String} {n : Nat} (h : emojiToNumber t = some n) :
    jsLower (jsTrim t) ≠ "cancelar" ∧ jsLower (jsTrim t) ≠ "volver" := by
  have hdig : ∃ c ∈ t.data, isDigitChar c = true := by
    by_contra hno
    push_neg at hno
    have hfil : t.data.filter isDigitChar = [] := by
      rw [List.filter_eq_nil_iff]
      intro c hc
      simp [hno c hc]
    rw [emojiToNumber] at h
    simp [hfil] at h
  obtain ⟨c, hcmem, hcd⟩ := hdig
  have hmem : c ∈ (jsLower (jsTrim t)).data := by
    show c ∈ (trimChars t.data).map lowerChar
    have := digit_mem_trim hcd hcmem
    have hself : lowerChar c = c := lowerChar_of_digit hcd
    exact hself ▸ List.mem_map_of_mem lowerChar this
  constructor <;> intro heq <;> rw [heq] at hmem
  · have : ∀ x ∈ ("cancelar" : String).data, isDigitChar x = false := by decide
    rw [this c hmem] at hcd
    cases hcd
  · have : ∀ x ∈ ("volver" : String).data, isDigitChar x = false := by decide
    rw [this c hmem] at hcd
    cases hcd

theorem resolveOffers_error_first (offers : List Offer) (nums : List Nat) (n : Nat)
    (h : resolveOffers offers nums = Except.error n) :
    nums.find? (fun m => (offers.find? (fun o => o.number = m)).isNone) = some n := by
  induction nums with
  | nil => simp [resolveOffers] at h
  | cons m rest ih =>
    rw [resolveOffers] at h
    rw [List.find?]
    cases hf : offers.find? (fun o => o.number = m) with
    | none =>
      rw [hf] at h
      simp at h
      simp [hf, h]
    | some o =>
      rw [hf] at h
      simp [hf]
      cases hr : resolveOffers offers rest with
      | error k =>
        rw [hr] at h
        simp [Except.map] at h
        subst h
        exact ih hr
      | ok ids =>
        rw [hr] at h
        simp [Except.map] at h

/-! ## Concrete fixtures shared by witnesses and counterexamples -/

def gameA : Game := ⟨1, 1, "Free Fire", ""⟩

def offerA : Offer := ⟨11, 1, 1, "100 diamantes", 100, 150, none⟩

def offerB : Offer := ⟨12, 1, 2, "310 diamantes", 250, 300, none⟩

def offerC : Offer := ⟨13, 1, 3, "520 diamantes", 400, 500, some 5⟩

def methodCardA : PaymentMethod :=
  ⟨21, PayType.card, 1, "Tarjeta BM", [("card_number", "9224"), ("confirm_number", "5555")]⟩

def fieldA : FieldRow := ⟨1, "ID de jugador", 1, true⟩

/-- One game with three offers and one card method, no custom fields. -/
def catFull : Catalog := ⟨[gameA], [offerA, offerB, offerC], [methodCardA], []⟩

/-- One game with one offer and no payment methods at all. -/
def catNoCards : Catalog := ⟨[gameA], [offerA], [], []⟩

/-- One game with one offer and one custom field. -/
def catWithField : Catalog := ⟨[gameA], [offerA], [], [fieldA]⟩

theorem getRequestStore_complete (store : RequestStore) (rid : String) :
    getRequestStore (completeRequestStore store rid) rid =
      (getRequestStore store rid).map (fun r => { r with status := ReqStatus.completed }) := by
  induction store with
  | nil => rfl
  | cons p t ih =>
    by_cases h : p.1 = rid
    · simp [getRequestStore, completeRequestStore, List.find?, h]
    · simp only [getRequestStore, completeRequestStore, List.map_cons, List.find?]
      simp only [h, if_false, decide_eq_false_iff_not, not_false_eq_true]
      simpa [getRequestStore, completeRequestStore] using ih

/-! ## C3 -/

/-- C3: parsing the rendered menu form is a round trip for the indices 0
through 9 but fails at 10: the rendered glyph for 10 contains no ASCII
digit, so emojiToNumber strips everything and returns null on the very
string numberToEmoji renders, even though the tolerated glyph set of the
specification, and the bulk-table regex of the code itself, include that
glyph. -/
theorem emoji_roundtrip_breaks_at_ten :
    (∀ n, n < 10 → emojiToNumber (numberToEmoji n) = some n) ∧
    emojiToNumber (numberToEmoji 10) = none := by
  constructor
  · decide
  · decide

/-- Witness for the round-trip part at a concrete index. -/
theorem emoji_roundtrip_breaks_at_ten_witness :
    emojiToNumber (numberToEmoji 3) = some 3 :=
  emoji_roundtrip_breaks_at_ten.1 3 (by decide)

/-! ## C6 -/

/-- C6 counterexample: a three-line batch whose middle line is malformed
creates exactly the two well-formed products and the closing success-count
summary, with zero per-line failure reports, where the claim requires one
reported failure; the malformed line is skipped silently. -/
theorem bulk_table_counterexample :
    handleCreateTableDialog (fun _ _ => true) "admin" ⟨["1 A", "garbage", "2 B"]⟩ "/listo" =
      (none, [Effect.createGame 1 "A", Effect.createGame 2 "B",
              Effect.send "admin" (Msg.tableSummary 2)]) := by decide

/-- C6 amended: each accumulated line is attempted independently and a
nonempty batch always ends with the success-count summary, but a line the
table regex does not match is skipped silently, contributing neither a
created product nor a reported failure, while the remaining lines are still
processed; only failures of the external store insert are reported per
line. -/
theorem bulk_table_partial_failure :
    (∀ (ok : Nat → String → Bool) (jid : String) (lines : List String), lines ≠ [] →
       handleCreateTableDialog ok jid ⟨lines⟩ "/listo" =
         (none, (processTableLines ok jid lines).effs ++
                [Effect.send jid (Msg.tableSummary (processTableLines ok jid lines).success)])) ∧
    (∀ (ok : Nat → String → Bool) (jid : String) (a : TableAcc) (line : String),
       matchTableLine line = none → stepTableLine ok jid a line = a) ∧
    (∀ (ok : Nat → String → Bool) (jid : String) (pre : List String) (line : String)
       (post : List String), matchTableLine line = none →
       processTableLines ok jid (pre ++ line :: post) = processTableLines ok jid (pre ++ post)) := by
  refine ⟨?_, ?_, ?_⟩
  · intro ok jid lines hne
    have h0 : lines.isEmpty = false := by
      cases lines with
      | nil => exact absurd rfl hne
      | cons a l => rfl
    have hcond : jsLower "/listo" = "/listo" := by decide
    simp [handleCreateTableDialog, hcond, h0]
  · intro ok jid a line h
    simp [stepTableLine, h]
  · intro ok jid pre line post h
    have hstep : ∀ a, stepTableLine ok jid a line = a := fun a => by simp [stepTableLine, h]
    simp [processTableLines, List.foldl_append, List.foldl_cons, hstep]

/-- Witness for the amended bulk-table theorem at the concrete scenario. -/
theorem bulk_table_partial_failure_witness :
    (handleCreateTableDialog (fun _ _ => true) "admin" ⟨["1 A", "garbage", "2 B"]⟩ "/listo" =
      (none, (processTableLines (fun _ _ => true) "admin" ["1 A", "garbage", "2 B"]).effs ++
             [Effect.send "admin" (Msg.tableSummary
               (processTableLines (fun _ _ => true) "admin" ["1 A", "garbage", "2 B"]).success)])) ∧
    (processTableLines (fun _ _ => true) "admin" ["1 A", "garbage", "2 B"] =
      processTableLines (fun _ _ => true) "admin" ["1 A", "2 B"]) :=
  ⟨bulk_table_partial_failure.1 (fun _ _ => true) "admin" ["1 A", "garbage", "2 B"] (by decide),
   bulk_table_partial_failure.2.2 (fun _ _ => true) "admin" ["1 A"] "garbage" ["2 B"] (by decide)⟩

/-! ## C5 -/

/-- C5 counterexample: in the payment-type state, choosing a type with zero
configured methods does not terminate the flow and does not reset the
session to idle: the session is returned unchanged, still in the
payment-type state, with a retry prompt. -/
theorem payment_type_no_methods_counterexample :
    handleClientMessageV1 catNoCards "admin" "user"
        ⟨StepV1.awaitingPaymentMethod, some 1, some 11, none, none, none⟩
        ⟨"1", false, false, "R1"⟩ =
      (⟨StepV1.awaitingPaymentMethod, some 1, some 11, none, none, none⟩,
       [sendHint "user" Msg.noMethodsOfType]) ∧
    (handleClientMessageV1 catNoCards "admin" "user"
        ⟨StepV1.awaitingPaymentMethod, some 1, some 11, none, none, none⟩
        ⟨"1", false, false, "R1"⟩).1.step ≠ StepV1.idle := by decide

/-- C5 amended: in the payment-type state, any input other than 1 or 2 is an
invalid choice leaving the session unchanged, and a chosen type with zero
configured methods produces the no-methods error while also leaving the
session unchanged, still in the same state: the flow is not terminated and
the session is not reset to idle. -/
theorem payment_type_no_methods_amended (cat : Catalog) (adminJid jid : String)
    (sess : SessionV1) (inp : InputV1)
    (hstep : sess.step = StepV1.awaitingPaymentMethod)
    (hc : jsLower (jsTrim inp.text) ≠ "cancelar")
    (hv : jsLower (jsTrim inp.text) ≠ "volver") :
    (jsTrim inp.text ≠ "1" ∧ jsTrim inp.text ≠ "2" →
       handleClientMessageV1 cat adminJid jid sess inp = (sess, [sendHint jid Msg.choose1or2])) ∧
    (jsTrim inp.text = "1" → getPaymentMethods cat (some PayType.card) = [] →
       handleClientMessageV1 cat adminJid jid sess inp =
         (sess, [sendHint jid Msg.noMethodsOfType])) ∧
    (jsTrim inp.text = "2" → getPaymentMethods cat (some PayType.mobile) = [] →
       handleClientMessageV1 cat adminJid jid sess inp =
         (sess, [sendHint jid Msg.noMethodsOfType])) := by
  refine ⟨?_, ?_, ?_⟩
  · intro h12
    simp [handleClientMessageV1, hc, hv, hstep, h12.1, h12.2]
  · intro h1 hms
    simp [handleClientMessageV1, hc, hv, hstep, h1, hms]
    rw [if_neg (by decide), if_neg (by decide)]
  · intro h2 hms
    have h1 : jsTrim inp.text ≠ "1" := by rw [h2]; decide
    simp [handleClientMessageV1, hc, hv, hstep, h1, h2, hms]
    rw [if_neg (by decide), if_neg (by decide)]

/-- Witness for the amended payment-type theorem at the concrete inputs. -/
theorem payment_type_no_methods_amended_witness :
    handleClientMessageV1 catNoCards "admin" "user"
        ⟨StepV1.awaitingPaymentMethod, some 1, some 11, none, none, none⟩
        ⟨"1", false, false, "R1"⟩ =
      (⟨StepV1.awaitingPaymentMethod, some 1, some 11, none, none, none⟩,
       [sendHint "user" Msg.noMethodsOfType]) :=
  (payment_type_no_methods_amended catNoCards "admin" "user"
      ⟨StepV1.awaitingPaymentMethod, some 1, some 11, none, none, none⟩
      ⟨"1", false, false, "R1"⟩ rfl (by decide) (by decide)).2.1 (by decide) (by decide)

/-! ## C7 -/

/-- C7 counterexample: an offer line whose two price tokens are not integers
is accepted, not rejected: parseInt yields NaN for both prices (modelled as
none) and the line is pushed onto the accumulated offers with a success
reply, where the claim requires that line to fail as malformed. -/
theorem offer_line_counterexample :
    parseOfferLine "1 gems abc def" = OfferLineResult.parsed ⟨1, "gems", none, none, none⟩ ∧
    handleAddOffersDialog (fun _ => true) "admin" ⟨7, 1, [⟨9, "prior", some 1, some 2, none⟩]⟩
        "1 gems abc def" =
      (some ⟨7, 1, [⟨9, "prior", some 1, some 2, none⟩, ⟨1, "gems", none, none, none⟩]⟩,
       [Effect.send "admin" (Msg.offerAdded "gems")]) := by decide

/-- C7 amended: the numeric tail is parsed right to left: the last token is
taken as the USD price exactly when the whole token parses as a number, and
the one or two tokens before it are converted by parseInt with no integer
validation, a non-numeric token yielding NaN while the line is still
accepted; only a line with fewer than four tokens or with an invalid leading
menu number fails, alone, leaving the previously accumulated lines
untouched. -/
theorem offer_line_tail_parse :
    (∀ text e, parseOfferLine text = OfferLineResult.parsed e →
       e.usd = parseDecimalFull
         (((splitWs (jsTrim text)).get? ((splitWs (jsTrim text)).length - 1)).getD "") ∧
       (e.usd.isSome = true →
         e.card = parseIntJs
           (((splitWs (jsTrim text)).get? ((splitWs (jsTrim text)).length - 2)).getD "") ∧
         e.mobile = parseIntJs
           (((splitWs (jsTrim text)).get? ((splitWs (jsTrim text)).length - 3)).getD "")) ∧
       (e.usd = none →
         e.card = parseIntJs
           (((splitWs (jsTrim text)).get? ((splitWs (jsTrim text)).length - 1)).getD "") ∧
         e.mobile = parseIntJs
           (((splitWs (jsTrim text)).get? ((splitWs (jsTrim text)).length - 2)).getD ""))) ∧
    (∀ ok jid d text, jsLower text ≠ "/fin" → parseOfferLine text = OfferLineResult.tooShort →
       handleAddOffersDialog ok jid d text = (some d, [Effect.send jid Msg.offerFormatError])) ∧
    (∀ ok jid d text, jsLower text ≠ "/fin" → parseOfferLine text = OfferLineResult.badNumber →
       handleAddOffersDialog ok jid d text = (some d, [Effect.send jid Msg.offerInvalidNumber])) ∧
    (∀ ok jid d text e, jsLower text ≠ "/fin" → parseOfferLine text = OfferLineResult.parsed e →
       handleAddOffersDialog ok jid d text =
         (some { d with offers := d.offers ++ [e] },
          [Effect.send jid (Msg.offerAdded e.desc)])) := by
  refine ⟨?_, ?_, ?_, ?_⟩
  · intro text e h
    simp only [parseOfferLine] at h
    split at h
    · cases h
    · split at h
      · cases h
      · split at h
        · rename_i hsome
          split at h
          · cases h
            refine ⟨rfl, ?_, ?_⟩
            · intro _
              exact ⟨congrArg (fun k => parseIntJs (((splitWs (jsTrim text)).get? k).getD ""))
                  (by omega : (splitWs (jsTrim text)).length - 1 - 1 =
                    (splitWs (jsTrim text)).length - 2),
                congrArg (fun k => parseIntJs (((splitWs (jsTrim text)).get? k).getD ""))
                  (by omega : (splitWs (jsTrim text)).length - 1 - 1 - 1 =
                    (splitWs (jsTrim text)).length - 3)⟩
            · intro hnone
              have hn2 : parseDecimalFull (((splitWs (jsTrim text)).get?
                  ((splitWs (jsTrim text)).length - 1)).getD "") = none := hnone
              rw [hn2] at hsome
              simp at hsome
          · cases h
        · rename_i hsome
          split at h
          · cases h
            refine ⟨rfl, ?_, ?_⟩
            · intro htrue
              exact absurd htrue hsome
            · intro _
              exact ⟨rfl,
                congrArg (fun k => parseIntJs (((splitWs (jsTrim text)).get? k).getD ""))
                  (by omega : (splitWs (jsTrim text)).length - 1 - 1 =
                    (splitWs (jsTrim text)).length - 2)⟩
          · cases h
  · intro ok jid d text hfin hp
    simp [handleAddOffersDialog, hfin, hp]
  · intro ok jid d text hfin hp
    simp [handleAddOffersDialog, hfin, hp]
  · intro ok jid d text e hfin hp
    simp [handleAddOffersDialog, hfin, hp]

/-- Witness for the amended offer-line theorem at concrete lines. -/
theorem offer_line_tail_parse_witness :
    ((parseOfferLine "2 diamonds 100 150 2.5" =
        OfferLineResult.parsed ⟨2, "diamonds", some 100, some 150, some (5 / 2)⟩) →
      (⟨2, "diamonds", some 100, some 150, some (5 / 2)⟩ : OfferEntry).usd =
        parseDecimalFull (((splitWs (jsTrim "2 diamonds 100 150 2.5")).get?
          ((splitWs (jsTrim "2 diamonds 100 150 2.5")).length - 1)).getD "")) ∧
    handleAddOffersDialog (fun _ => true) "admin" ⟨7, 1, [⟨9, "prior", some 1, some 2, none⟩]⟩
        "xx" =
      (some ⟨7, 1, [⟨9, "prior", some 1, some 2, none⟩]⟩,
       [Effect.send "admin" Msg.offerFormatError]) :=
  ⟨fun h => (offer_line_tail_parse.1 "2 diamonds 100 150 2.5" _ h).1,
   offer_line_tail_parse.2.1 (fun _ => true) "admin" ⟨7, 1, [⟨9, "prior", some 1, some 2, none⟩]⟩
     "xx" (by decide) (by decide)⟩

/-! ## C8 -/

/-- Modelled from the spec words, for refinement comparison only: a
normalized match against the pattern oferta(s), that is, the normalized text
contains oferta, optionally followed by s. -/
def matchesOfertaSpec (t : String) : Bool := strContains (jsNormalize t) "oferta"

/-- C8 counterexample: the text ofert does not match the claimed pattern
oferta(s), yet the code resets a non-idle session on it, because the source
regex also accepts the bare stem ofert: the trigger fires on strictly more
texts than the claimed pattern. -/
theorem ofertas_trigger_counterexample :
    matchesOfertaSpec "ofert" = false ∧
    handleClientMessageV2 catFull "admin" "user"
        ⟨StepV2.awaitingOffers, some 1, none, none, none, none⟩ ⟨"ofert", "R1"⟩ =
      (clearedSessionV2, sendMainMenu catFull "user") ∧
    (⟨StepV2.awaitingOffers, some 1, none, none, none, none⟩ : SessionV2) ≠
      clearedSessionV2 := by decide

/-- C8 amended: for a non-idle session the reset fires exactly on
containsOfertas, whose normalized test accepts the stem ofert with optional
suffixes, a superset of the pattern oferta(s); it resets the session with
all selection fields cleared and resends the main menu; an idle session
never fires the trigger and is left unchanged; and a text not accepted by
containsOfertas never triggers the reset, the message falling through to the
ordinary per-state dispatch. -/
theorem ofertas_trigger_amended :
    (∀ cat adminJid jid sess inp, sess.step ≠ StepV2.idle → containsOfertas inp.text = true →
       handleClientMessageV2 cat adminJid jid sess inp =
         (clearedSessionV2, sendMainMenu cat jid)) ∧
    (∀ cat adminJid jid sess inp, sess.step = StepV2.idle →
       jsLower (jsTrim inp.text) ≠ "cancelar" → jsLower (jsTrim inp.text) ≠ "volver" →
       handleClientMessageV2 cat adminJid jid sess inp = (sess, sendMainMenu cat jid)) ∧
    (∀ cat adminJid jid sess inp, containsOfertas inp.text = false →
       jsLower (jsTrim inp.text) ≠ "cancelar" → jsLower (jsTrim inp.text) ≠ "volver" →
       handleClientMessageV2 cat adminJid jid sess inp =
         handleClientMessageV2Core cat adminJid jid sess inp) := by
  refine ⟨?_, ?_, ?_⟩
  · intro cat adminJid jid sess inp hstep hof
    simp [handleClientMessageV2, hof, hstep]
  · intro cat adminJid jid sess inp hstep hc hv
    simp [handleClientMessageV2, hstep, hc, hv, handleClientMessageV2Core]
  · intro cat adminJid jid sess inp hof hc hv
    simp [handleClientMessageV2, hof, hc, hv]

/-- Witness for the amended trigger theorem at concrete inputs. -/
theorem ofertas_trigger_amended_witness :
    handleClientMessageV2 catFull "admin" "user"
        ⟨StepV2.awaitingGame, none, none, none, none, none⟩ ⟨"Ofertas ya", "R1"⟩ =
      (clearedSessionV2, sendMainMenu catFull "user") ∧
    handleClientMessageV2 catFull "admin" "user" clearedSessionV2 ⟨"ofertas", "R1"⟩ =
      (clearedSessionV2, sendMainMenu catFull "user") :=
  ⟨ofertas_trigger_amended.1 catFull "admin" "user"
      ⟨StepV2.awaitingGame, none, none, none, none, none⟩ ⟨"Ofertas ya", "R1"⟩
      (by decide) (by decide),
   ofertas_trigger_amended.2.1 catFull "admin" "user" clearedSessionV2 ⟨"ofertas", "R1"⟩
      rfl (by decide) (by decide)⟩

/-! ## C9 -/

/-- C9 counterexample: after a successful offer selection for a product with
zero custom fields, the session does not move to a payment-method state: the
funnel of this flow variant finalizes immediately, the pending order is
already created and the session is reset to idle. -/
theorem offer_branch_counterexample :
    (handleClientMessageV2 catFull "admin" "user"
        ⟨StepV2.awaitingOffers, some 1, none, none, none, none⟩ ⟨"1", "R1"⟩).1 =
      clearedSessionV2 ∧
    createdRequests (handleClientMessageV2 catFull "admin" "user"
        ⟨StepV2.awaitingOffers, some 1, none, none, none, none⟩ ⟨"1", "R1"⟩).2 =
      [(some "R1", ⟨"user", "Free Fire", "100 diamantes", "pendiente",
                    ReqDetails.fieldVals (some []), none, ReqStatus.pending⟩)] := by decide

/-- C9 amended: after a successful offer selection the resolved offer ids
are stored; with at least one custom field the session moves to the field
state at index 0 and the first field name is prompted; with zero custom
fields the funnel finalizes immediately: exactly one pending order is
created, the operator and the user are notified, and the session resets to
idle, there being no payment-method stage in this flow variant. -/
theorem offer_branch_amended (cat : Catalog) (adminJid jid : String) (sess : SessionV2)
    (inp : InputV2) (game : Game) (ids : List Nat)
    (hstep : sess.step = StepV2.awaitingOffers)
    (hof : containsOfertas inp.text = false)
    (hc : jsLower (jsTrim inp.text) ≠ "cancelar")
    (hv : jsLower (jsTrim inp.text) ≠ "volver")
    (hne : parseNumbers inp.text ≠ [])
    (hg : getGameByNumberOpt cat sess.selectedGame = some game)
    (hres : resolveOffers (getOffersByGameId cat game.id) (parseNumbers inp.text) =
      Except.ok ids) :
    (∀ f fs, getGameFields cat game.id = f :: fs →
       handleClientMessageV2 cat adminJid jid sess inp =
         ({ sess with step := StepV2.awaitingFields, selectedOffers := some ids,
                      fieldValues := some [], currentField := some 0 },
          [Effect.send jid (Msg.firstFieldPrompt f.fieldName)])) ∧
    (getGameFields cat game.id = [] →
       (handleClientMessageV2 cat adminJid jid sess inp).1 = clearedSessionV2 ∧
       createdRequests (handleClientMessageV2 cat adminJid jid sess inp).2 =
         [(some inp.freshId,
           ⟨jid, game.name,
            joinComma ((getOffersByIds cat ids).map (fun o => o.description)),
            "pendiente", ReqDetails.fieldVals (some []), none, ReqStatus.pending⟩)]) := by
  have h0 : (parseNumbers inp.text).isEmpty = false := by
    cases hx : parseNumbers inp.text with
    | nil => exact absurd hx hne
    | cons a l => rfl
  constructor
  · intro f fs hf
    simp [handleClientMessageV2, handleClientMessageV2Core, hof, hc, hv, hstep, h0, hg, hres, hf]
  · intro hf
    simp [handleClientMessageV2, handleClientMessageV2Core, hof, hc, hv, hstep, h0, hg, hres,
      hf, sendRequestToAdmin, createdRequests]

/-- Witness for the amended offer-branch theorem, both branches at concrete
catalogs. -/
theorem offer_branch_amended_witness :
    handleClientMessageV2 catWithField "admin" "user"
        ⟨StepV2.awaitingOffers, some 1, none, none, none, none⟩ ⟨"1", "R1"⟩ =
      (⟨StepV2.awaitingFields, some 1, some [11], some [], some 0, none⟩,
       [Effect.send "user" (Msg.firstFieldPrompt "ID de jugador")]) ∧
    (handleClientMessageV2 catFull "admin" "user"
        ⟨StepV2.awaitingOffers, some 1, none, none, none, none⟩ ⟨"1", "R1"⟩).1 =
      clearedSessionV2 :=
  ⟨(offer_branch_amended catWithField "admin" "user"
      ⟨StepV2.awaitingOffers, some 1, none, none, none, none⟩ ⟨"1", "R1"⟩ gameA [11]
      rfl (by decide) (by decide) (by decide) (by decide) rfl rfl).1
      fieldA [] (by decide),
   ((offer_branch_amended catFull "admin" "user"
      ⟨StepV2.awaitingOffers, some 1, none, none, none, none⟩ ⟨"1", "R1"⟩ gameA [11]
      rfl (by decide) (by decide) (by decide) (by decide) rfl rfl).2
      (by decide)).1⟩

/-! ## C4 -/

/-- C4: offer selection is all-or-nothing: whenever the resolution of the
parsed multi-index input fails, the session is returned entirely unchanged,
no offer is recorded, and the reported index is the first input index with
no matching offer of the selected product. -/
theorem offer_selection_all_or_nothing :
    (∀ cat adminJid jid sess inp game n,
       sess.step = StepV2.awaitingOffers →
       containsOfertas inp.text = false →
       jsLower (jsTrim inp.text) ≠ "cancelar" → jsLower (jsTrim inp.text) ≠ "volver" →
       parseNumbers inp.text ≠ [] →
       getGameByNumberOpt cat sess.selectedGame = some game →
       resolveOffers (getOffersByGameId cat game.id) (parseNumbers inp.text) =
         Except.error n →
       handleClientMessageV2 cat adminJid jid sess inp =
         (sess, [sendHint jid (Msg.offerNumberNotFound n)])) ∧
    (∀ offers nums n, resolveOffers offers nums = Except.error n →
       nums.find? (fun m => (offers.find? (fun o => o.number = m)).isNone) = some n) := by
  constructor
  · intro cat adminJid jid sess inp game n hstep hof hc hv hne hg hres
    have h0 : (parseNumbers inp.text).isEmpty = false := by
      cases hx : parseNumbers inp.text with
      | nil => exact absurd hx hne
      | cons a l => rfl
    simp [handleClientMessageV2, handleClientMessageV2Core, hof, hc, hv, hstep, h0, hg, hres]
  · intro offers nums n h
    exact resolveOffers_error_first offers nums n h

/-- Witness for the all-or-nothing theorem at the scenario of the claim:
offers 1, 2 and 3, input 1,9. -/
theorem offer_selection_all_or_nothing_witness :
    handleClientMessageV2 catFull "admin" "user"
        ⟨StepV2.awaitingOffers, some 1, none, none, none, none⟩ ⟨"1,9", "R1"⟩ =
      (⟨StepV2.awaitingOffers, some 1, none, none, none, none⟩,
       [sendHint "user" (Msg.offerNumberNotFound 9)]) ∧
    (parseNumbers "1,9").find?
        (fun m => ((getOffersByGameId catFull 1).find? (fun o => o.number = m)).isNone) =
      some 9 :=
  ⟨offer_selection_all_or_nothing.1 catFull "admin" "user"
      ⟨StepV2.awaitingOffers, some 1, none, none, none, none⟩ ⟨"1,9", "R1"⟩ gameA 9
      rfl (by decide) (by decide) (by decide) (by decide) rfl rfl,
   offer_selection_all_or_nothing.2 (getOffersByGameId catFull 1) (parseNumbers "1,9") 9 rfl⟩

/-! ## C10 -/

/-- C10: in each state of the payment-proof funnel that parses a menu index,
an input whose digit content parses to 0 is rejected exactly like an
unparsable input: the session is unchanged, the result does not depend on
the catalog in any way, so no catalog lookup can be observed, and the
outcome is identical to that of an input with no digits at all. -/
theorem zero_index_rejected (cat cat2 : Catalog) (adminJid jid : String) (sess : SessionV1)
    (inp inp2 : InputV1)
    (hstep : sess.step = StepV1.awaitingGame ∨ sess.step = StepV1.awaitingOffer ∨
             sess.step = StepV1.awaitingPaymentChoice)
    (h0 : emojiToNumber inp.text = some 0)
    (hn : emojiToNumber inp2.text = none)
    (hc2 : jsLower (jsTrim inp2.text) ≠ "cancelar")
    (hv2 : jsLower (jsTrim inp2.text) ≠ "volver") :
    (handleClientMessageV1 cat adminJid jid sess inp).1 = sess ∧
    handleClientMessageV1 cat adminJid jid sess inp =
      handleClientMessageV1 cat2 adminJid jid sess inp ∧
    handleClientMessageV1 cat adminJid jid sess inp =
      handleClientMessageV1 cat adminJid jid sess inp2 := by
  obtain ⟨hc, hv⟩ := emoji_some_not_keyword h0
  have ht : toTruthy (emojiToNumber inp.text) = none := by rw [h0]; rfl
  have ht2 : toTruthy (emojiToNumber inp2.text) = none := by rw [hn]; rfl
  rcases hstep with h | h | h <;>
    exact ⟨by simp [handleClientMessageV1, hc, hv, h, ht],
      by simp [handleClientMessageV1, hc, hv, h, ht],
      by simp [handleClientMessageV1, hc, hv, hc2, hv2, h, ht, ht2]⟩

/-- Witness for the zero-index theorem at the concrete inputs 0 and x. -/
theorem zero_index_rejected_witness :
    (handleClientMessageV1 catFull "admin" "user"
        ⟨StepV1.awaitingGame, none, none, none, none, none⟩ ⟨"0", false, false, "R1"⟩).1 =
      ⟨StepV1.awaitingGame, none, none, none, none, none⟩ ∧
    handleClientMessageV1 catFull "admin" "user"
        ⟨StepV1.awaitingGame, none, none, none, none, none⟩ ⟨"0", false, false, "R1"⟩ =
      handleClientMessageV1 catFull "admin" "user"
        ⟨StepV1.awaitingGame, none, none, none, none, none⟩ ⟨"x", false, false, "R1"⟩ :=
  ⟨(zero_index_rejected catFull catNoCards "admin" "user"
      ⟨StepV1.awaitingGame, none, none, none, none, none⟩ ⟨"0", false, false, "R1"⟩
      ⟨"x", false, false, "R1"⟩ (Or.inl rfl) (by decide) (by decide) (by decide) (by decide)).1,
   (zero_index_rejected catFull catNoCards "admin" "user"
      ⟨StepV1.awaitingGame, none, none, none, none, none⟩ ⟨"0", false, false, "R1"⟩
      ⟨"x", false, false, "R1"⟩ (Or.inl rfl) (by decide) (by decide) (by decide) (by decide)).2.2⟩

/-! ## C2 -/

/-- C2: the cancel keyword resets either flow variant to an idle session
with every selection column cleared to null, and reaching funnel completion,
the successful screenshot step of the payment-proof variant or the last
field answer of the fields variant, leaves the very same fully cleared idle
session. -/
theorem cancel_and_completion_clear_session :
    (∀ cat adminJid jid sess inp, jsLower (jsTrim inp.text) = "cancelar" →
       (handleClientMessageV1 cat adminJid jid sess inp).1 = clearedSessionV1) ∧
    (∀ cat adminJid jid sess inp, jsLower (jsTrim inp.text) = "cancelar" →
       (handleClientMessageV2 cat adminJid jid sess inp).1 = clearedSessionV2) ∧
    (∀ cat adminJid jid sess inp game offer method,
       jsLower (jsTrim inp.text) ≠ "cancelar" → jsLower (jsTrim inp.text) ≠ "volver" →
       sess.step = StepV1.awaitingScreenshot → inp.hasImage = true → inp.uploadOk = true →
       getGameByNumberOpt cat sess.selectedGame = some game →
       getOfferByIdOpt cat sess.selectedOfferId = some offer →
       getMethodByNumOpt2 cat sess.selectedPaymentType sess.selectedPaymentNumber =
         some method →
       (handleClientMessageV1 cat adminJid jid sess inp).1 = clearedSessionV1) ∧
    (∀ cat adminJid jid sess inp game,
       jsLower (jsTrim inp.text) ≠ "volver" →
       sess.step = StepV2.awaitingFields →
       getGameByNumberOpt cat sess.selectedGame = some game →
       sess.currentField.getD 0 < (getGameFields cat game.id).length →
       (getGameFields cat game.id).length ≤ sess.currentField.getD 0 + 1 →
       (handleClientMessageV2 cat adminJid jid sess inp).1 = clearedSessionV2) := by
  refine ⟨?_, ?_, ?_, ?_⟩
  · intro cat adminJid jid sess inp h
    simp [handleClientMessageV1, h]
  · intro cat adminJid jid sess inp h
    by_cases htrig : containsOfertas inp.text = true ∧ sess.step ≠ StepV2.idle
    · simp [handleClientMessageV2, htrig]
    · simp [handleClientMessageV2, htrig, h]
  · intro cat adminJid jid sess inp game offer method hc hv hstep himg hup hg hoff hm
    simp [handleClientMessageV1, hc, hv, hstep, himg, hup, hg, hoff, hm]
  · intro cat adminJid jid sess inp game hv hstep hg hlt hle
    have h2 : ¬(sess.currentField.getD 0 + 1 < (getGameFields cat game.id).length) := by omega
    by_cases htrig : containsOfertas inp.text = true ∧ sess.step ≠ StepV2.idle
    · simp [handleClientMessageV2, htrig]
    · by_cases hcan : jsLower (jsTrim inp.text) = "cancelar"
      · simp [handleClientMessageV2, htrig, hcan]
      · simp [handleClientMessageV2, handleClientMessageV2Core, htrig, hcan, hv, hstep, hg,
          hlt, h2, sendRequestToAdmin]
        split <;> rfl

/-- Witness for the cancel and completion theorem at concrete sessions. -/
theorem cancel_and_completion_clear_session_witness :
    (handleClientMessageV1 catFull "admin" "user"
        ⟨StepV1.awaitingOffer, some 1, none, none, none, none⟩
        ⟨" Cancelar ", false, false, "R1"⟩).1 = clearedSessionV1 ∧
    (handleClientMessageV2 catFull "admin" "user"
        ⟨StepV2.awaitingOffers, some 1, none, none, none, none⟩ ⟨"cancelar", "R1"⟩).1 =
      clearedSessionV2 ∧
    (handleClientMessageV1 catFull "admin" "user"
        ⟨StepV1.awaitingScreenshot, some 1, some 11, some PayType.card, some 1, some "R7"⟩
        ⟨"aqui la foto", true, true, "RX"⟩).1 = clearedSessionV1 ∧
    (handleClientMessageV2 catWithField "admin" "user"
        ⟨StepV2.awaitingFields, some 1, some [11], some [], some 0, none⟩
        ⟨"12345", "R9"⟩).1 = clearedSessionV2 :=
  ⟨cancel_and_completion_clear_session.1 catFull "admin" "user"
      ⟨StepV1.awaitingOffer, some 1, none, none, none, none⟩
      ⟨" Cancelar ", false, false, "R1"⟩ (by decide),
   cancel_and_completion_clear_session.2.1 catFull "admin" "user"
      ⟨StepV2.awaitingOffers, some 1, none, none, none, none⟩ ⟨"cancelar", "R1"⟩ (by decide),
   cancel_and_completion_clear_session.2.2.1 catFull "admin" "user"
      ⟨StepV1.awaitingScreenshot, some 1, some 11, some PayType.card, some 1, some "R7"⟩
      ⟨"aqui la foto", true, true, "RX"⟩ gameA offerA methodCardA
      (by decide) (by decide) rfl rfl rfl rfl rfl rfl,
   cancel_and_completion_clear_session.2.2.2 catWithField "admin" "user"
      ⟨StepV2.awaitingFields, some 1, some [11], some [], some 0, none⟩ ⟨"12345", "R9"⟩ gameA
      (by decide) rfl rfl (by decide) (by decide)⟩

/-! ## C1 -/

/-- C1: a completed funnel pass of the payment-proof variant creates exactly
one order, with pending status and the uploading user as its owning
identity; the completion command on a pending order flips it to completed
and sends the completion notice to the owning identity, an already
completed order is rejected without any mutation of the store, and an
unknown identifier is rejected without any mutation. -/
theorem order_lifecycle :
    (∀ cat adminJid jid sess inp game offer method,
       jsLower (jsTrim inp.text) ≠ "cancelar" → jsLower (jsTrim inp.text) ≠ "volver" →
       sess.step = StepV1.awaitingScreenshot → inp.hasImage = true → inp.uploadOk = true →
       getGameByNumberOpt cat sess.selectedGame = some game →
       getOfferByIdOpt cat sess.selectedOfferId = some offer →
       getMethodByNumOpt2 cat sess.selectedPaymentType sess.selectedPaymentNumber =
         some method →
       createdRequests (handleClientMessageV1 cat adminJid jid sess inp).2 =
         [(sess.requestId,
           ⟨jid, game.name, offer.description, method.label,
            ReqDetails.methodDetails method.details, some (publicUrl sess.requestId),
            ReqStatus.pending⟩)]) ∧
    (∀ store adminJid rid req, getRequestStore store rid = some req →
       req.status = ReqStatus.pending →
       getRequestStore (handleCompletarCommand store adminJid rid).1 rid =
         some { req with status := ReqStatus.completed } ∧
       (handleCompletarCommand store adminJid rid).2 =
         [Effect.completeRequest rid,
          Effect.send req.userJid (Msg.completionNotice req.gameName req.offerDesc),
          Effect.send adminJid (Msg.requestCompleted rid)]) ∧
    (∀ store adminJid rid req, getRequestStore store rid = some req →
       req.status = ReqStatus.completed →
       handleCompletarCommand store adminJid rid =
         (store, [Effect.send adminJid Msg.alreadyCompleted])) ∧
    (∀ store adminJid rid, getRequestStore store rid = none →
       handleCompletarCommand store adminJid rid =
         (store, [Effect.send adminJid Msg.requestNotFound])) := by
  refine ⟨?_, ?_, ?_, ?_⟩
  · intro cat adminJid jid sess inp game offer method hc hv hstep himg hup hg hoff hm
    simp [handleClientMessageV1, hc, hv, hstep, himg, hup, hg, hoff, hm, createdRequests]
  · intro store adminJid rid req hreq hstat
    have hne : ¬(req.status = ReqStatus.completed) := by rw [hstat]; decide
    constructor
    · simp only [handleCompletarCommand, hreq, hne, if_false]
      rw [getRequestStore_complete, hreq]
      rfl
    · simp [handleCompletarCommand, hreq, hne]
  · intro store adminJid rid req hreq hstat
    simp [handleCompletarCommand, hreq, hstat]
  · intro store adminJid rid hreq
    simp [handleCompletarCommand, hreq]

/-- A concrete pending request used by the lifecycle witness. -/
def reqPending : Request :=
  ⟨"user", "Free Fire", "100 diamantes", "Tarjeta BM",
   ReqDetails.methodDetails [("card_number", "9224")], some "screenshots/R1.png",
   ReqStatus.pending⟩

/-- Witness for the order lifecycle theorem: a concrete completed funnel
pass, then the completion command on a pending, a completed and an unknown
identifier. -/
theorem order_lifecycle_witness :
    createdRequests (handleClientMessageV1 catFull "admin" "user"
        ⟨StepV1.awaitingScreenshot, some 1, some 11, some PayType.card, some 1, some "R1"⟩
        ⟨"la foto", true, true, "RX"⟩).2 =
      [(some "R1",
        ⟨"user", "Free Fire", "100 diamantes", "Tarjeta BM",
         ReqDetails.methodDetails [("card_number", "9224"), ("confirm_number", "5555")],
         some "screenshots/R1.png", ReqStatus.pending⟩)] ∧
    getRequestStore (handleCompletarCommand [("R1", reqPending)] "admin" "R1").1 "R1" =
      some { reqPending with status := ReqStatus.completed } ∧
    (handleCompletarCommand [("R1", reqPending)] "admin" "R1").2 =
      [Effect.completeRequest "R1",
       Effect.send "user" (Msg.completionNotice "Free Fire" "100 diamantes"),
       Effect.send "admin" (Msg.requestCompleted "R1")] ∧
    handleCompletarCommand [("R1", { reqPending with status := ReqStatus.completed })]
        "admin" "R1" =
      ([("R1", { reqPending with status := ReqStatus.completed })],
       [Effect.send "admin" Msg.alreadyCompleted]) ∧
    handleCompletarCommand [("R1", reqPending)] "admin" "R2" =
      ([("R1", reqPending)], [Effect.send "admin" Msg.requestNotFound]) :=
  ⟨order_lifecycle.1 catFull "admin" "user"
      ⟨StepV1.awaitingScreenshot, some 1, some 11, some PayType.card, some 1, some "R1"⟩
      ⟨"la foto", true, true, "RX"⟩ gameA offerA methodCardA
      (by decide) (by decide) rfl rfl rfl rfl rfl rfl,
   (order_lifecycle.2.1 [("R1", reqPending)] "admin" "R1" reqPending rfl rfl).1,
   (order_lifecycle.2.1 [("R1", reqPending)] "admin" "R1" reqPending rfl rfl).2,
   order_lifecycle.2.2.1 [("R1", { reqPending with status := ReqStatus.completed })]
      "admin" "R1" { reqPending with status := ReqStatus.completed } rfl rfl,
   order_lifecycle.2.2.2 [("R1", reqPending)] "admin" "R2" rfl⟩

end WhatsRecargas
